import Mathlib

/-
  Verification development for the TB-RDS-Connect repository.

  Shallow embedding of src/rds_connector.py: the query builder
  (build_query), schema builder (build_schema), clean-plan builder
  (build_clean_list), the cleaning operations (clean_empty_none,
  convert_dates, convert_integer) and the RDS table-session methods
  (check_schema, clean_table, query_to_df).

  A pandas DataFrame is modelled as a `Table`: a list of column names
  plus a list of rows, each row an association list from column name to
  `Value`.  The external pandas primitives used by the source
  (pd.to_datetime, pd.to_numeric, drop_duplicates, concat) are modelled
  by executable Lean functions whose control-flow behaviour (raise
  vs. coerce, keep-first deduplication, fresh-frame allocation) mirrors
  the pandas calls written in the source.
-/

namespace TBRDS

set_option maxRecDepth 40000

/-- A single cell value of a table.  `vNone` stands for Python None /
pandas NaN / NaT (the null-equivalent markers); `vDate` is a parsed
datetime (encoded as a number); `vInt` a numeric value. -/
inductive Value where
  | vNone : Value
  | vStr : String → Value
  | vInt : Int → Value
  | vDate : Nat → Value
deriving DecidableEq, Repr

/-- A row of a DataFrame: an association list column-name → value. -/
abbrev Row := List (String × Value)

/-- A pandas DataFrame: ordered column names plus rows. -/
structure Table where
  cols : List String
  rows : List Row
deriving DecidableEq, Repr

/-- Lookup `row[field]`. -/
def rowGet (r : Row) (field : String) : Option Value :=
  (r.find? (fun p => p.1 == field)).map (fun p => p.2)

/-- Cell update `df[field] = ...` on one row. -/
def setCell (r : Row) (field : String) (v : Value) : Row :=
  r.map (fun p => if p.1 == field then (p.1, v) else p)

/-- The test `row[field] == None or row[field] == ''` from
clean_empty_none (src/rds_connector.py line 898). -/
def isEmptyNone (v : Option Value) : Bool :=
  v == some Value.vNone || v == some (Value.vStr "")

/-- pandas `drop_duplicates`: keep the first occurrence of each
duplicated row, preserving order. -/
def dedupRows (rows : List Row) : List Row :=
  rows.foldl (fun acc r => if r ∈ acc then acc else acc ++ [r]) []

/-- Model of `data.drop_duplicates()` (src/rds_connector.py line 381). -/
def drop_duplicates (t : Table) : Table :=
  ⟨t.cols, dedupRows t.rows⟩

/-- Split a character list on the dash character. -/
def splitDash : List Char → List (List Char)
  | [] => [[]]
  | c :: rest =>
    match splitDash rest with
    | [] => [[]]
    | g :: gs => if c = '-' then [] :: g :: gs else (c :: g) :: gs

/-- Decimal value of a digit string, accumulator form. -/
def digitsValAux : List Char → Nat → Option Nat
  | [], acc => some acc
  | c :: rest, acc =>
    if 48 ≤ c.toNat ∧ c.toNat ≤ 57 then
      digitsValAux rest (acc * 10 + (c.toNat - 48))
    else none

/-- Decimal value of a non-empty digit string. -/
def digitsVal : List Char → Option Nat
  | [] => none
  | c :: rest => digitsValAux (c :: rest) 0

/-- Modelled boundary collaborator: the per-value date parser of the
external `pd.to_datetime`, restricted to ISO `yyyy-mm-dd` strings
(encoded as yyyy*10000 + mm*100 + dd).  Only its success/failure
behaviour matters to the claims. -/
def parseDate (s : String) : Option Nat :=
  match splitDash s.toList with
  | [y, m, d] =>
    match digitsVal y, digitsVal m, digitsVal d with
    | some yn, some mn, some dn =>
      if 1 ≤ mn ∧ mn ≤ 12 ∧ 1 ≤ dn ∧ dn ≤ 31 then
        some (yn * 10000 + mn * 100 + dn)
      else none
    | _, _, _ => none
  | _ => none

/-- Modelled boundary collaborator: `Series.dt.strftime` rendering of a
parsed date in a caller-given format. -/
def strftimeModel (fmt : String) (d : Nat) : String :=
  fmt ++ ":" ++ toString d

/-- One cell under `pd.to_datetime` with the default errors='raise':
null values become NaT, parseable strings become datetimes, anything
else makes the whole column conversion fail (`none`). -/
def cellToDate : Value → Option Value
  | Value.vNone => some Value.vNone
  | Value.vDate d => some (Value.vDate d)
  | Value.vStr s => (parseDate s).map Value.vDate
  | Value.vInt _ => none

/-- Modelled boundary collaborator: the per-value numeric parser of the
external `pd.to_numeric`, restricted to optionally-signed decimal
strings. -/
def parseIntModel (s : String) : Option Int :=
  match s.toList with
  | '-' :: rest => (digitsVal rest).map (fun n => -(n : Int))
  | l => (digitsVal l).map (fun n => (n : Int))

/-- One cell under `pd.to_numeric(..., errors='coerce')`: values that
cannot be coerced become the null marker instead of failing. -/
def cellToInt : Value → Value
  | Value.vInt n => Value.vInt n
  | Value.vStr s =>
    match parseIntModel s with
    | some n => Value.vInt n
    | none => Value.vNone
  | Value.vNone => Value.vNone
  | Value.vDate _ => Value.vNone

/-- Embedding of `clean_empty_none(field, df, removed)` (src/rds_connector.py lines
847-913): partitions rows on `row[field] == None or row[field] == ''`;
kept rows are rebuilt by repeated `pd.concat` into a fresh frame (so a
run that keeps no rows yields the fresh empty frame, which has no
columns), matching rows are appended to `removed`. -/
def clean_empty_none (field : String) (df : Table) (removed : List Row) :
    Except String (Table × List Row) :=
  if field ∈ df.cols then
    let out := df.rows.foldl
      (fun (acc : List Row × List Row) row =>
        if isEmptyNone (rowGet row field) then (acc.1, acc.2 ++ [row])
        else (acc.1 ++ [row], acc.2))
      ([], removed)
    Except.ok (⟨if out.1.isEmpty then [] else df.cols, out.1⟩, out.2)
  else Except.error ("Error: " ++ field ++ " Not In DataFrame")

/-- One row under `pd.to_datetime(df[field])`. -/
def rowToDate (field : String) (r : Row) : Option Row :=
  match rowGet r field with
  | some v => (cellToDate v).map (setCell r field)
  | none => some r

/-- Whole-column `pd.to_datetime` with errors='raise': any single
unconvertible cell fails the whole column. -/
def rowsToDate (field : String) : List Row → Option (List Row)
  | [] => some []
  | r :: rest =>
    match rowToDate field r with
    | some r2 => (rowsToDate field rest).map (fun l => r2 :: l)
    | none => none

/-- Model of `Series.dt.strftime(output_format)` over one row. -/
def rowFormat (fmt : String) (field : String) (r : Row) : Row :=
  match rowGet r field with
  | some (Value.vDate d) => setCell r field (Value.vStr (strftimeModel fmt d))
  | _ => r

/-- Embedding of `convert_dates(field, df, output_format)` (src/rds_connector.py
lines 920-971): raises if the field is absent; converts the column with
`pd.to_datetime` (default errors='raise', so any unparseable value is
caught by the `except` and re-raised naming the field); optionally
re-renders via strftime. -/
def convert_dates (field : String) (df : Table)
    (output_format : Option String) : Except String Table :=
  if field ∈ df.cols then
    match rowsToDate field df.rows with
    | some rs =>
      match output_format with
      | some fmt => Except.ok ⟨df.cols, rs.map (rowFormat fmt field)⟩
      | none => Except.ok ⟨df.cols, rs⟩
    | none =>
      Except.error ("Error: Could not convert " ++ field ++
        " to datetime:  Traceback")
  else Except.error ("Error: " ++ field ++ " Not In DataFrame")

/-- Embedding of `convert_integer(field, df)` (src/rds_connector.py lines 978-1020):
raises if the field is absent; coerces the column with
`pd.to_numeric(..., errors='coerce')`, which never fails per-value. -/
def convert_integer (field : String) (df : Table) : Except String Table :=
  if field ∈ df.cols then
    Except.ok ⟨df.cols, df.rows.map (fun r =>
      match rowGet r field with
      | some v => setCell r field (cellToInt v)
      | none => r)⟩
  else Except.error ("Error: " ++ field ++ " Not In DataFrame")

/-- The `source` component of a query package (see src/query_package.py):
anchor table name, short alias, field mappings (each entry of `fields`
is one Python dict literal, modelled as an association list of
source-column → output-column pairs in insertion order), the numeric
project filter and the order-by column. -/
structure Source where
  table : String
  name : String
  fields : List (List (String × String))
  project : Int
  order : String
deriving DecidableEq, Repr

/-- One entry of the `join_list` component (see src/query_package.py).
`clean` maps output columns to lists of cleaning-directive names. -/
structure Join where
  name : String
  question_source : String
  source_id : String
  join_id : String
  data_source : String
  question_id : Int
  fields : List (List (String × String))
  clean : List (List (String × List String))
deriving DecidableEq, Repr

/-- A query package: `{'source': ..., 'join_list': [...]}`. -/
structure QueryPackage where
  source : Source
  join_list : List Join
deriving DecidableEq, Repr

/-- Embedding of `unpack_query` (src/rds_connector.py lines 472-526).  A structured
`QueryPackage` always carries both components, so the missing-component
errors of the Python cannot fire here. -/
def unpack_query : Option QueryPackage → Option Source × Option (List Join)
  | some qp => (some qp.source, some qp.join_list)
  | none => (none, none)

/-- Python dict lookup on a field-mapping dict modelled as an
association list. -/
def dLookup (d : List (String × String)) (k : String) : Option String :=
  (d.find? (fun p => p.1 == k)).map (fun p => p.2)

/-- Python `==` on two field-mapping dicts: same keys, and each key
bound to the same value (insertion order is irrelevant to dict
equality). -/
def dictBeq (a b : List (String × String)) : Bool :=
  a.all (fun p => dLookup b p.1 == some p.2) &&
    b.all (fun p => dLookup a p.1 == some p.2)

/-- Exclusion filtering at the end of `build_schema`
(src/rds_connector.py lines 686-687). -/
def applyExclude (exclude : Option (List String)) (lst : List String) :
    List String :=
  match exclude with
  | some ex => lst.filter (fun field => decide (field ∉ ex))
  | none => lst

/-- All output-column names of a source+joins description, in
declaration order (source fields first, then each join's fields). -/
def schemaDerived (src : Source) (js : List Join) : List String :=
  (src.fields.map (fun d => d.map (fun m => m.2))).flatten ++
    (js.map (fun item => (item.fields.map (fun d => d.map (fun m => m.2))).flatten)).flatten

/-- Embedding of `build_schema` (src/rds_connector.py lines 620-690).  The Python
`if`/`elif` has no `else`: any combination matching neither branch
leaves `schema_lst` as the empty list, which is then returned after the
exclusion filter. -/
def build_schema (source : Option Source) (join_list : Option (List Join))
    (schema : Option (List String)) (exclude : Option (List String)) :
    List String :=
  let schema_lst :=
    match schema, source, join_list with
    | none, some src, some js => schemaDerived src js
    | some sc, none, none => sc
    | _, _, _ => []
  applyExclude exclude schema_lst

/-- A `SELECT` line with its trailing comma:
the f-string with alias, source column and output column. -/
def selLineC (tblAlias tn jn : String) : String :=
  "    " ++ tblAlias ++ "." ++ tn ++ " AS " ++ jn ++ ",\n"

/-- A `SELECT` line without the trailing comma:
the same f-string minus the comma. -/
def selLineN (tblAlias tn jn : String) : String :=
  "    " ++ tblAlias ++ "." ++ tn ++ " AS " ++ jn ++ "\n"

/-- The source-field `SELECT` lines (src/rds_connector.py lines
742-748): every line ends with a comma. -/
def sourceSelectLines (src : Source) : List String :=
  (src.fields.map (fun d => d.map (fun m => selLineC src.name m.1 m.2))).flatten

/-- The join-field `SELECT` lines (src/rds_connector.py lines 752-764).
`total` is `len(join_list)` and `idx` the enumerate index; the Python
emits a line without the trailing comma when
`index == len(join_list) - 1 and field == item['fields'][-1]`, i.e. for
EVERY mapping inside any field dict of the last join that is
dict-equal to the last field dict. -/
def joinSelectLinesAux (total : Nat) : Nat → List Join → List String
  | _, [] => []
  | idx, item :: rest =>
    ((item.fields.map (fun d => d.map (fun m =>
        if idx == total - 1 && dictBeq d (item.fields.getLastD []) then
          selLineN item.name m.1 m.2
        else selLineC item.name m.1 m.2))).flatten)
      ++ joinSelectLinesAux total (idx + 1) rest

/-- All join-field `SELECT` lines of a join list. -/
def joinSelectLines (js : List Join) : List String :=
  joinSelectLinesAux js.length 0 js

/-- The linking-table alias for the join at `enumerate` index `idx`
(src/rds_connector.py lines 782-786): `initial_join_answers` for the
first join, `join_answers_N` afterwards (`join_count` equals the index
from the second join on). -/
def dataConnName (idx : Nat) : String :=
  if idx == 0 then "initial_join_answers" else "join_answers_" ++ toString idx

/-- The two LEFT JOIN lines emitted for one join spec
(src/rds_connector.py lines 794-795). -/
def joinClausePair (dataConn qs : String) (item : Join) : String :=
  "\nLEFT JOIN application_data_answer " ++ dataConn ++ " ON " ++ qs ++ "."
    ++ item.source_id ++ " = " ++ dataConn ++ "." ++ item.join_id ++ " AND "
    ++ dataConn ++ ".question_id = " ++ toString item.question_id
    ++ "\nLEFT JOIN " ++ item.data_source ++ " " ++ item.name ++ " ON "
    ++ dataConn ++ ".id = " ++ item.name ++ ".answer_ptr_id\n"

/-- The join-clause section of `build_query` (src/rds_connector.py
lines 779-798).  `question_source` is the Python local that keeps its
value from the previous iteration (`prevQS`); a join whose tag is
neither `JOIN_SOURCE` nor `DATA_SOURCE` reuses it, and on the first
iteration the unbound local raises a NameError, re-raised by the
`except` clause.  Note the `DATA_SOURCE` branch always yields the fixed
string `'initial_join_answers'`. -/
def buildJoinClauses (srcName : String) : List Join → Nat → Option String →
    Except String (List String)
  | [], _, _ => Except.ok []
  | item :: rest, idx, prevQS =>
    let dataConn := dataConnName idx
    let qsOpt :=
      if item.question_source == "JOIN_SOURCE" then some srcName
      else if item.question_source == "DATA_SOURCE" then some "initial_join_answers"
      else prevQS
    match qsOpt with
    | some qs =>
      match buildJoinClauses srcName rest (idx + 1) (some qs) with
      | Except.ok cs => Except.ok (joinClausePair dataConn qs item :: cs)
      | Except.error e => Except.error e
    | none =>
      Except.error
        "Error: Could not pull join information from join list, check join list data package.  Traceback: NameError"

/-- Embedding of `build_query` (src/rds_connector.py lines 695-832).  The Python
`if`/`elif` has no `else`: any argument combination other than
(source+joins, no raw query) or (raw query only) falls through and
returns the `query` argument unchanged (None included).  The final
`codecs.decode(query.encode(), 'unicode_escape')` of the source is the
identity on the rendered strings (they contain real newlines, not
escape sequences) and is therefore not modelled. -/
def build_query (source : Option Source) (join_list : Option (List Join))
    (query : Option String) : Except String (Option String) :=
  match query, source, join_list with
  | none, some src, some js =>
    match buildJoinClauses src.name js 0 none with
    | Except.ok cs =>
      Except.ok (some ("SELECT\n"
        ++ String.join (sourceSelectLines src)
        ++ String.join (joinSelectLines js)
        ++ "\nFROM\n" ++ "    " ++ src.table ++ " " ++ src.name ++ "\n"
        ++ String.join cs
        ++ "\n WHERE \n" ++ "    " ++ src.name ++ ".project_id = "
        ++ toString src.project
        ++ "\n ORDER BY\n" ++ src.name ++ "." ++ src.order ++ ";"))
    | Except.error e => Except.error e
  | _, _, _ => Except.ok query

/-- The three registered cleaning operations of the `clean_dict`
registry (src/rds_connector.py lines 572-576). -/
inductive CleanFn where
  | nullClean : CleanFn
  | dateConvert : CleanFn
  | intConvert : CleanFn
deriving DecidableEq, Repr

/-- One entry of the clean list: `{'field': name, 'function': ...}`. -/
structure CleanStep where
  field : String
  function : CleanFn
deriving DecidableEq, Repr

/-- Registry lookup `clean_dict[calc]` (src/rds_connector.py lines
572-606): an unknown directive name raises a KeyError, re-raised by the
surrounding `except`. -/
def resolveCalc (c : String) : Except String CleanFn :=
  if c == "NULL" then Except.ok CleanFn.nullClean
  else if c == "DATE_CONVERT" then Except.ok CleanFn.dateConvert
  else if c == "INT_CONVERT" then Except.ok CleanFn.intConvert
  else
    Except.error
      ("Error: Could not add calc entry to clean list.  Traceback:KeyError " ++ c)

/-- The innermost loop of `build_clean_list`: one clean-directive dict
entry (output column → directive names). -/
def calcsToSteps (nm : String) : List String → Except String (List CleanStep)
  | [] => Except.ok []
  | c :: rest =>
    match resolveCalc c with
    | Except.ok fn =>
      match calcsToSteps nm rest with
      | Except.ok steps => Except.ok (⟨nm, fn⟩ :: steps)
      | Except.error e => Except.error e
    | Except.error e => Except.error e

/-- One `clean` dict of a join (the `for name, calcs in field.items()`
loop). -/
def cleanDictToSteps : List (String × List String) →
    Except String (List CleanStep)
  | [] => Except.ok []
  | (nm, calcs) :: rest =>
    match calcsToSteps nm calcs with
    | Except.ok steps =>
      match cleanDictToSteps rest with
      | Except.ok more => Except.ok (steps ++ more)
      | Except.error e => Except.error e
    | Except.error e => Except.error e

/-- The `for field in item['clean']` loop of one join. -/
def cleanOfJoin : List (List (String × List String)) →
    Except String (List CleanStep)
  | [] => Except.ok []
  | d :: rest =>
    match cleanDictToSteps d with
    | Except.ok steps =>
      match cleanOfJoin rest with
      | Except.ok more => Except.ok (steps ++ more)
      | Except.error e => Except.error e
    | Except.error e => Except.error e

/-- Embedding of `build_clean_list` (src/rds_connector.py lines 535-614). -/
def build_clean_list : Option (List Join) → Except String (List CleanStep)
  | none => Except.ok []
  | some jl =>
    let rec go : List Join → Except String (List CleanStep)
      | [] => Except.ok []
      | item :: rest =>
        match cleanOfJoin item.clean with
        | Except.ok steps =>
          match go rest with
          | Except.ok more => Except.ok (steps ++ more)
          | Except.error e => Except.error e
        | Except.error e => Except.error e
    go jl

/-- One audit-log entry
`{"Step": ..., "Field": ..., "Result": data}`. -/
structure Snap where
  step : String
  field : Option String
  result : Table
deriving DecidableEq, Repr

/-- The audit-step name used in `clean_table` for each operation kind
(src/rds_connector.py lines 305-317). -/
def stepVersion : CleanFn → String
  | CleanFn.nullClean => "Clean Nulls and Empty Fields"
  | CleanFn.dateConvert => "Convert String Dates to DateTimes"
  | CleanFn.intConvert => "Convert String Numbers to Integers"

/-- The mutable state of one `RDS` table session.  `schema` is always a
list in the source (`build_schema` never returns None), so the Python
guard `self.schema != None` is always true. -/
structure Session where
  schema : List String
  query : Option String
  clean_list : List CleanStep
  df : Table
  removed : List Row
  cleaning_versions : List Snap
  fields_missing : List String
deriving DecidableEq, Repr

/-- The columns of `schema` absent from `cols`, in schema order. -/
def missingFields (schema cols : List String) : List String :=
  schema.filter (fun f => decide (f ∉ cols))

/-- Embedding of `RDS.check_schema` (src/rds_connector.py lines 201-249): walks the
expected schema, appending every absent column to the session's
`fields_missing` (never clearing it), and returns False on any miss;
raises when the frame is empty.  Returns the mutated session alongside
the result, mirroring Python attribute mutation that survives a later
raise. -/
def check_schema (s : Session) (df : Table) : Session × Except String Bool :=
  if df.rows.isEmpty = false then
    let out := s.schema.foldl
      (fun (acc : Bool × List String) field =>
        if field ∈ df.cols then acc else (false, acc.2 ++ [field]))
      (true, s.fields_missing)
    ({s with fields_missing := out.2}, Except.ok out.1)
  else (s, Except.error "Error: Dataframe Empty When Checking Schema")

/-- The `for step in self.clean_list` loop of `RDS.clean_table`
(src/rds_connector.py lines 293-323): dispatches on the stored
function, threads the working table and the removed-rows sink, and
appends one audit entry per executed step.  On a raise, the entries
appended so far survive (Python attribute mutation), so they are
returned alongside the error. -/
def runSteps : List CleanStep → Table → List Row → List Snap →
    List Row × List Snap × Except String Table
  | [], data, removed, versions => (removed, versions, Except.ok data)
  | step :: rest, data, removed, versions =>
    match step.function with
    | CleanFn.nullClean =>
      match clean_empty_none step.field data removed with
      | Except.ok (d, r) =>
        runSteps rest d r
          (versions ++ [⟨"Clean Nulls and Empty Fields", some step.field, d⟩])
      | Except.error e => (removed, versions, Except.error e)
    | CleanFn.dateConvert =>
      match convert_dates step.field data none with
      | Except.ok d =>
        runSteps rest d removed
          (versions ++ [⟨"Convert String Dates to DateTimes", some step.field, d⟩])
      | Except.error e => (removed, versions, Except.error e)
    | CleanFn.intConvert =>
      match convert_integer step.field data with
      | Except.ok d =>
        runSteps rest d removed
          (versions ++ [⟨"Convert String Numbers to Integers", some step.field, d⟩])
      | Except.error e => (removed, versions, Except.error e)

/-- Embedding of `RDS.clean_table` (src/rds_connector.py lines 254-330): resets
`cleaning_versions` and `removed` (only this method resets them),
records the "Original DataFrame" entry, runs each clean step in order
and finally records the "Final DataFrame" entry. -/
def clean_table (s : Session) (data : Table) : Session × Except String Table :=
  let versions0 : List Snap :=
    if s.cleaning_versions.length ≠ 0 then [] else s.cleaning_versions
  let removed0 : List Row := if s.removed.isEmpty = false then [] else s.removed
  let versions1 := versions0 ++ [⟨"Original DataFrame", none, data⟩]
  match runSteps s.clean_list data removed0 versions1 with
  | (r, v, Except.ok d) =>
    let vfin := v ++ [⟨"Final DataFrame", none, d⟩]
    ({s with removed := r, cleaning_versions := vfin}, Except.ok d)
  | (r, v, Except.error e) =>
    ({s with removed := r, cleaning_versions := v}, Except.error e)

/-- Embedding of `RDS.query_to_df` (src/rds_connector.py lines 335-402), with the
row set produced by the external `rds_sql_pull(self.cursor, self.query)`
supplied as the `pull` argument.  The guard
`(self.query != None) & (self.schema != None)` reduces to
`self.query != None` because `self.schema` is always a list.  Returns
the mutated session alongside the result, mirroring Python attribute
mutation that survives a later raise. -/
def query_to_df (s : Session) (pull : Table) (clean : Bool) :
    Session × Except String Table :=
  match s.query with
  | some _ =>
    let data := pull
    if data.rows.isEmpty = false then
      match check_schema s data with
      | (s1, Except.ok true) =>
        let data1 := drop_duplicates data
        let s2 := {s1 with df := data1}
        if clean = true then
          match clean_table s2 data1 with
          | (s3, Except.ok d) => ({s3 with df := d}, Except.ok d)
          | (s3, Except.error e) => (s3, Except.error e)
        else (s2, Except.ok data1)
      | (s1, Except.ok false) =>
        (s1, Except.error "Error: DataFrame Schema Did Not Match, Check fields_missing()")
      | (s1, Except.error e) => (s1, Except.error e)
    else (s, Except.error "Error: DataFrame Emtpy from SQL Query")
  | none => (s, Except.error "Error: DataFrame Emtpy from SQL Query")

/-- Embedding of `RDS.__init__` with `auto=False` (src/rds_connector.py lines
169-195): unpacks the package, builds schema, query and clean list, and
initialises `removed`, `cleaning_versions` and `fields_missing` to
empty — the only place `fields_missing` is ever reset. -/
def RDS_init (query_package : Option QueryPackage)
    (schema : Option (List String)) (exclude : Option (List String))
    (query : Option String) : Except String Session :=
  let up := unpack_query query_package
  let schema2 := build_schema up.1 up.2 schema exclude
  match build_query up.1 up.2 query with
  | Except.error e => Except.error e
  | Except.ok q =>
    match build_clean_list up.2 with
    | Except.error e => Except.error e
    | Except.ok cl =>
      Except.ok
        { schema := schema2, query := q, clean_list := cl,
          df := ⟨[], []⟩, removed := [], cleaning_versions := [],
          fields_missing := [] }

/-- Whether the first character list starts the second. -/
def strLeads : List Char → List Char → Bool
  | [], _ => true
  | _ :: _, [] => false
  | p :: ps, t :: ts => (p = t) && strLeads ps ts

/-- Whether a pattern occurs somewhere in a character list. -/
def strFind (pat : List Char) : List Char → Bool
  | [] => strLeads pat []
  | t :: ts => strLeads pat (t :: ts) || strFind pat ts

/-- Computable substring test used to state counterexamples. -/
def strContains (s pat : String) : Bool :=
  strFind pat.toList s.toList

/-- Comparison definition following the amended description of the
join-clause rendering rule: the left side of the first ON clause is the
source alias for a `JOIN_SOURCE` join and the FIXED linking alias
`initial_join_answers` for any other join tag, regardless of the join's
position. -/
def joinClausesAmended (srcName : String) : List Join → Nat → List String
  | [], _ => []
  | item :: rest, idx =>
    let qs :=
      if item.question_source == "JOIN_SOURCE" then srcName
      else "initial_join_answers"
    joinClausePair (dataConnName idx) qs item
      :: joinClausesAmended srcName rest (idx + 1)

/-
  Object-identity model of the cleaning pipeline.

  The audit entries of `clean_table` store Python REFERENCES to
  DataFrames, and `convert_dates` / `convert_integer` mutate their
  argument frame in place (`df[field] = ...`) and return the same
  object, while `clean_empty_none` and `drop_duplicates` allocate fresh
  frames.  To reason about which snapshot is affected by which later
  step, the pipeline is replayed over an explicit store of frames, with
  audit entries holding store indices instead of values.
-/

/-- A heap of DataFrame objects; an index is a Python reference. -/
abbrev Store := List Table

/-- Dereference a frame. -/
def storeGet (st : Store) (p : Nat) : Table := st.getD p ⟨[], []⟩

/-- Overwrite a frame in place. -/
def storeSet (st : Store) (p : Nat) (t : Table) : Store := st.set p t

/-- Version of `convert_integer` at the object level: `df[field] = pd.to_numeric(...)`
mutates the frame behind the reference and returns the same
reference. -/
def convert_integer_st (field : String) (p : Nat) (st : Store) :
    Except String (Nat × Store) :=
  match convert_integer field (storeGet st p) with
  | Except.ok t => Except.ok (p, storeSet st p t)
  | Except.error e => Except.error e

/-- Version of `convert_dates` at the object level: in-place mutation, same
reference returned. -/
def convert_dates_st (field : String) (p : Nat) (st : Store) :
    Except String (Nat × Store) :=
  match convert_dates field (storeGet st p) none with
  | Except.ok t => Except.ok (p, storeSet st p t)
  | Except.error e => Except.error e

/-- Version of `clean_empty_none` at the object level: `pd.concat` builds a fresh
frame, so the result is a new reference. -/
def clean_empty_none_st (field : String) (p : Nat) (removed : List Row)
    (st : Store) : Except String (Nat × List Row × Store) :=
  match clean_empty_none field (storeGet st p) removed with
  | Except.ok (t, r) => Except.ok (st.length, r, st ++ [t])
  | Except.error e => Except.error e

/-- An audit entry holding a reference to its recorded frame. -/
structure SnapRef where
  step : String
  field : Option String
  result : Nat
deriving DecidableEq, Repr

/-- The clean-step loop of `RDS.clean_table` at the object level. -/
def runSteps_st : List CleanStep → Nat → List Row → List SnapRef → Store →
    List Row × List SnapRef × Store × Except String Nat
  | [], p, removed, versions, st => (removed, versions, st, Except.ok p)
  | step :: rest, p, removed, versions, st =>
    match step.function with
    | CleanFn.nullClean =>
      match clean_empty_none_st step.field p removed st with
      | Except.ok (p2, r2, st2) =>
        runSteps_st rest p2 r2
          (versions ++ [⟨"Clean Nulls and Empty Fields", some step.field, p2⟩]) st2
      | Except.error e => (removed, versions, st, Except.error e)
    | CleanFn.dateConvert =>
      match convert_dates_st step.field p st with
      | Except.ok (p2, st2) =>
        runSteps_st rest p2 removed
          (versions ++ [⟨"Convert String Dates to DateTimes", some step.field, p2⟩]) st2
      | Except.error e => (removed, versions, st, Except.error e)
    | CleanFn.intConvert =>
      match convert_integer_st step.field p st with
      | Except.ok (p2, st2) =>
        runSteps_st rest p2 removed
          (versions ++ [⟨"Convert String Numbers to Integers", some step.field, p2⟩]) st2
      | Except.error e => (removed, versions, st, Except.error e)

/-- Version of `RDS.clean_table` at the object level, starting from a reset
session state (fresh audit log and removed table): records a reference
to the incoming frame as "Original DataFrame", runs the plan, records
"Final DataFrame". -/
def clean_table_st (clean_list : List CleanStep) (p : Nat) (st : Store) :
    List Row × List SnapRef × Store × Except String Nat :=
  let versions1 : List SnapRef := [⟨"Original DataFrame", none, p⟩]
  match runSteps_st clean_list p [] versions1 st with
  | (r, v, st2, Except.ok p2) =>
    (r, v ++ [⟨"Final DataFrame", none, p2⟩], st2, Except.ok p2)
  | (r, v, st2, Except.error e) => (r, v, st2, Except.error e)

/-
  Helper lemmas.
-/

/-- Characterisation of the row-partition fold used by
`clean_empty_none`. -/
theorem foldl_partition {α : Type} (p : α → Bool) :
    ∀ (rows : List α) (a b : List α),
      rows.foldl
        (fun (acc : List α × List α) row =>
          if p row then (acc.1, acc.2 ++ [row]) else (acc.1 ++ [row], acc.2))
        (a, b)
        = (a ++ rows.filter (fun row => !(p row)), b ++ rows.filter p) := by
  intro rows
  induction rows with
  | nil => intro a b; simp
  | cons r rest IH =>
    intro a b
    by_cases h : p r = true
    · simp only [List.foldl_cons, h, if_pos, List.filter_cons]
      rw [IH]
      simp [h, List.append_assoc]
    · have h2 : p r = false := by
        cases hp : p r
        · rfl
        · exact absurd hp h
      simp only [List.foldl_cons, h2, List.filter_cons]
      rw [IH]
      simp [h2, List.append_assoc]

/-- The `pd.to_datetime` column model succeeds iff every row converts. -/
theorem rowsToDate_of_all (field : String) :
    ∀ rows : List Row,
      rows.all (fun r => (rowToDate field r).isSome) = true →
      rowsToDate field rows
        = some (rows.map (fun r => (rowToDate field r).getD r)) := by
  intro rows
  induction rows with
  | nil => intro _; rfl
  | cons r rest IH =>
    intro h
    simp only [List.all_cons, Bool.and_eq_true] at h
    obtain ⟨h1, h2⟩ := h
    cases hr : rowToDate field r with
    | none => rw [hr] at h1; simp at h1
    | some r2 =>
      simp only [rowsToDate, hr, IH h2, Option.map_some]
      simp [List.map_cons, hr]

/-- The `pd.to_datetime` column model fails iff some row does not
convert. -/
theorem rowsToDate_of_not_all (field : String) :
    ∀ rows : List Row,
      rows.all (fun r => (rowToDate field r).isSome) = false →
      rowsToDate field rows = none := by
  intro rows
  induction rows with
  | nil => intro h; simp at h
  | cons r rest IH =>
    intro h
    simp only [List.all_cons, Bool.and_eq_false_iff] at h
    cases hr : rowToDate field r with
    | none => simp [rowsToDate, hr]
    | some r2 =>
      rcases h with h1 | h2
      · rw [hr] at h1; simp at h1
      · simp [rowsToDate, hr, IH h2]

/-- Characterisation of the missing-field fold in `check_schema`. -/
theorem foldl_missing (cols : List String) :
    ∀ (schema : List String) (b : Bool) (init : List String),
      schema.foldl
        (fun (acc : Bool × List String) field =>
          if field ∈ cols then acc else (false, acc.2 ++ [field]))
        (b, init)
        = (b && (missingFields schema cols).isEmpty,
           init ++ missingFields schema cols) := by
  intro schema
  induction schema with
  | nil => intro b init; simp [missingFields]
  | cons f rest IH =>
    intro b init
    by_cases hf : f ∈ cols
    · simp only [List.foldl_cons, if_pos hf]
      rw [IH]
      simp [missingFields, List.filter_cons, hf]
    · simp only [List.foldl_cons, if_neg hf]
      rw [IH]
      simp [missingFields, List.filter_cons, hf, List.append_assoc]

/-- Evaluating `check_schema` on a non-empty frame: appends exactly the missing
columns (in schema order) to the session's accumulated list and
answers whether there were none. -/
theorem check_schema_eq (s : Session) (df : Table)
    (h : df.rows.isEmpty = false) :
    check_schema s df
      = ({s with fields_missing :=
            s.fields_missing ++ missingFields s.schema df.cols},
         Except.ok (missingFields s.schema df.cols).isEmpty) := by
  unfold check_schema
  rw [if_pos h, foldl_missing]
  simp

/-- The two reset guards at the top of `clean_table` always produce the
empty list. -/
theorem reset_length {α : Type} (l : List α) :
    (if l.length ≠ 0 then ([] : List α) else l) = [] := by
  cases l <;> rfl

/-- The removed-frame reset guard always produces the empty list. -/
theorem reset_empty {α : Type} (l : List α) :
    (if l.isEmpty = false then ([] : List α) else l) = [] := by
  cases l <;> rfl

/-- Unfolding `clean_table` with the resets evaluated: it always starts from a
fresh audit log and a fresh removed-rows table. -/
theorem clean_table_eq (s : Session) (data : Table) :
    clean_table s data
      = (match runSteps s.clean_list data []
            [⟨"Original DataFrame", none, data⟩] with
         | (r, v, Except.ok d) =>
           let vfin := v ++ [⟨"Final DataFrame", none, d⟩]
           ({s with removed := r, cleaning_versions := vfin}, Except.ok d)
         | (r, v, Except.error e) =>
           ({s with removed := r, cleaning_versions := v}, Except.error e)) := by
  simp only [clean_table, reset_length, reset_empty, List.nil_append]

/-- On success, the audit entries appended by the clean-step loop are
exactly one per step, named after the operation kind, after whatever
was already in the log. -/
theorem runSteps_names :
    ∀ (steps : List CleanStep) (data : Table) (r0 : List Row)
      (v0 : List Snap) (r : List Row) (v : List Snap) (d : Table),
      runSteps steps data r0 v0 = (r, v, Except.ok d) →
      v.map Snap.step
        = v0.map Snap.step ++ steps.map (fun st => stepVersion st.function) := by
  intro steps
  induction steps with
  | nil =>
    intro data r0 v0 r v d h
    simp only [runSteps, Prod.mk.injEq] at h
    obtain ⟨-, h2, -⟩ := h
    simp [h2.symm]
  | cons step rest IH =>
    intro data r0 v0 r v d h
    cases hfn : step.function with
    | nullClean =>
      simp only [runSteps, hfn] at h
      split at h
      · have hv := IH _ _ _ _ _ _ h
        rw [hv]
        simp [List.map_append, stepVersion, hfn, List.append_assoc]
      · exact absurd (congrArg (fun x => x.2.2) h) (by simp)
    | dateConvert =>
      simp only [runSteps, hfn] at h
      split at h
      · have hv := IH _ _ _ _ _ _ h
        rw [hv]
        simp [List.map_append, stepVersion, hfn, List.append_assoc]
      · exact absurd (congrArg (fun x => x.2.2) h) (by simp)
    | intConvert =>
      simp only [runSteps, hfn] at h
      split at h
      · have hv := IH _ _ _ _ _ _ h
        rw [hv]
        simp [List.map_append, stepVersion, hfn, List.append_assoc]
      · exact absurd (congrArg (fun x => x.2.2) h) (by simp)

/-
  Claim theorems.
-/

/-- C3 (counterexample): `build_query` does NOT fail on argument
combinations outside the two entry modes.  With both a raw query and a
source+join description supplied it silently returns the raw query, and
with nothing supplied it silently returns None — in both cases it
returns a value instead of raising the configuration error the claim
asserts. -/
theorem C3_cex :
    build_query (some ⟨"t", "s", [[("a", "x")]], 1, "id"⟩)
        (some [⟨"j", "JOIN_SOURCE", "id", "aid", "tbl", 7, [[("v", "o")]], []⟩])
        (some "SELECT 1 FROM t")
      = Except.ok (some "SELECT 1 FROM t")
    ∧ build_query none none none = (Except.ok none : Except String (Option String)) :=
  ⟨rfl, rfl⟩

/-- C3 (amended): `build_query` builds a query only in the mode (no raw
query, source and join list both present); in EVERY other argument
combination — both supplied, neither supplied, or a partial spec — it
returns the raw-query argument unchanged (None when absent) without
raising any error, because the Python `if`/`elif` has no `else`
branch. -/
theorem C3_amended (source : Option Source) (join_list : Option (List Join))
    (query : Option String)
    (h : query.isSome = true ∨ source = none ∨ join_list = none) :
    build_query source join_list query = Except.ok query := by
  cases query with
  | some q => cases source <;> cases join_list <;> rfl
  | none =>
    cases source with
    | none => cases join_list <;> rfl
    | some src =>
      cases join_list with
      | none => rfl
      | some js => rcases h with h | h | h <;> simp at h

/-- C3 (witness): the amended theorem applied at a concrete input where
both a raw query and a full spec are supplied. -/
theorem C3_witness :
    build_query (some ⟨"t2", "s2", [[("b", "y")]], 2, "id"⟩)
        (some [⟨"j2", "DATA_SOURCE", "id", "aid", "tbl2", 8, [[("v", "o")]], []⟩])
        (some "SELECT a FROM b")
      = Except.ok (some "SELECT a FROM b") :=
  C3_amended _ _ _ (Or.inl rfl)

/-- C4 (counterexample): `build_schema` does NOT fail when neither or
both inputs are supplied: with nothing supplied it returns the empty
list, and with both a full spec and an explicit schema supplied it also
returns the empty list — a value, not the configuration error the
claim asserts. -/
theorem C4_cex :
    build_schema none none none none = ([] : List String)
    ∧ build_schema (some ⟨"t", "s", [[("a", "x")]], 1, "id"⟩)
        (some [⟨"j", "JOIN_SOURCE", "id", "aid", "tbl", 7, [[("v", "o")]], []⟩])
        (some ["x", "o"]) none
      = [] :=
  ⟨rfl, rfl⟩

/-- C4 (amended): `build_schema` returns the derived column list when
exactly the spec is supplied, the explicit list when exactly a schema
is supplied (both minus exclusions), and in every other combination it
silently returns the EMPTY list instead of failing, because the Python
`if`/`elif` has no `else` branch. -/
theorem C4_amended :
    (∀ (src : Source) (js : List Join) (ex : Option (List String)),
      build_schema (some src) (some js) none ex
        = applyExclude ex (schemaDerived src js))
    ∧ (∀ (sc : List String) (ex : Option (List String)),
      build_schema none none (some sc) ex = applyExclude ex sc)
    ∧ (∀ (source : Option Source) (join_list : Option (List Join))
        (sc ex : Option (List String)),
      (sc ≠ none ∨ source = none ∨ join_list = none) →
      (sc = none ∨ source ≠ none ∨ join_list ≠ none) →
      build_schema source join_list sc ex = []) := by
  refine ⟨fun src js ex => rfl, fun sc ex => rfl, ?_⟩
  intro source join_list sc ex h1 h2
  cases sc with
  | none =>
    cases source with
    | none => cases join_list <;> cases ex <;> rfl
    | some src =>
      cases join_list with
      | none => cases ex <;> rfl
      | some js => rcases h1 with h | h | h <;> simp at h
  | some sc2 =>
    cases source with
    | none =>
      cases join_list with
      | none => rcases h2 with h | h | h <;> simp at h
      | some js => cases ex <;> rfl
    | some src => cases join_list <;> cases ex <;> rfl

/-- C4 (witness): the amended theorem applied at a concrete input where
both the spec and an explicit schema are supplied: the result is the
empty list, not an error. -/
theorem C4_witness :
    build_schema (some ⟨"t3", "s3", [[("c", "z")]], 3, "id"⟩)
        (some [⟨"j3", "JOIN_SOURCE", "id", "aid", "tbl3", 9, [[("v", "o")]], []⟩])
        (some ["z"]) none
      = [] :=
  C4_amended.2.2 _ _ _ _ (Or.inl (Option.some_ne_none _))
    (Or.inr (Or.inl (Option.some_ne_none _)))

/-- C5 (counterexample): a column mixing a parseable date string with
one unparseable string does NOT succeed with a null marker in that
position: `pd.to_datetime` is called with its default errors='raise',
so `convert_dates` raises the fatal error naming the field. -/
theorem C5_cex :
    convert_dates "d"
        ⟨["d"], [[("d", Value.vStr "2020-01-01")], [("d", Value.vStr "notadate")]]⟩ none
      = Except.error "Error: Could not convert d to datetime:  Traceback"
    ∧ parseDate "2020-01-01" = some 20200101
    ∧ parseDate "notadate" = none :=
  ⟨rfl, rfl, rfl⟩

/-- C5 (amended): for a table containing the named field, to-date
(`convert_dates`) succeeds — converting nulls to the null marker and
parseable strings to dates — only when EVERY value in the column
converts; as soon as any single value fails to parse, the whole call
fails with the fatal error naming the field (there is no per-value
null-marker fallback for dates, unlike to-integer). -/
theorem C5_amended (field : String) (df : Table) (h : field ∈ df.cols) :
    (df.rows.all (fun r => (rowToDate field r).isSome) = true →
      convert_dates field df none
        = Except.ok ⟨df.cols, df.rows.map (fun r => (rowToDate field r).getD r)⟩)
    ∧ (df.rows.all (fun r => (rowToDate field r).isSome) = false →
      convert_dates field df none
        = Except.error ("Error: Could not convert " ++ field
            ++ " to datetime:  Traceback")) := by
  constructor
  · intro hall
    unfold convert_dates
    rw [if_pos h, rowsToDate_of_all field df.rows hall]
  · intro hnot
    unfold convert_dates
    rw [if_pos h, rowsToDate_of_not_all field df.rows hnot]

/-- C5 (witness): the amended theorem applied at a concrete table whose
column holds one parseable date string and one null. -/
theorem C5_witness :
    convert_dates "d" ⟨["d"], [[("d", Value.vStr "2020-01-01")], [("d", Value.vNone)]]⟩ none
      = Except.ok ⟨["d"], [[("d", Value.vDate 20200101)], [("d", Value.vNone)]]⟩ :=
  Eq.trans
    ((C5_amended "d" ⟨["d"], [[("d", Value.vStr "2020-01-01")], [("d", Value.vNone)]]⟩
        (by decide)).1 (by decide))
    rfl

/-- C6: drop-if-null (`clean_empty_none`) partitions the table's rows:
rows whose value in the field is null or the empty string are appended
(in order) to the removed sink after its prior contents, all other rows
are kept in their original relative order (so no row is duplicated or
lost), and a field absent from the table's columns is a fatal error
naming the field.  (The kept frame is rebuilt by `pd.concat`, so when
every row is removed it is the fresh empty frame without columns.) -/
theorem C6_partition (field : String) (df : Table) (removed : List Row) :
    (field ∈ df.cols →
      clean_empty_none field df removed
        = Except.ok
            (⟨if (df.rows.filter (fun r => !(isEmptyNone (rowGet r field)))).isEmpty
                then [] else df.cols,
              df.rows.filter (fun r => !(isEmptyNone (rowGet r field)))⟩,
             removed ++ df.rows.filter (fun r => isEmptyNone (rowGet r field))))
    ∧ (field ∉ df.cols →
      clean_empty_none field df removed
        = Except.error ("Error: " ++ field ++ " Not In DataFrame")) := by
  constructor
  · intro h
    unfold clean_empty_none
    rw [if_pos h]
    rw [foldl_partition (fun row => isEmptyNone (rowGet row field)) df.rows [] removed]
    simp
  · intro h
    unfold clean_empty_none
    rw [if_neg h]

/-- C6 (witness): the partition theorem applied at the spec's own
example table `[{age:5},{age:""},{age:null}]` with an empty sink. -/
theorem C6_witness :
    clean_empty_none "age"
        ⟨["age"], [[("age", Value.vInt 5)], [("age", Value.vStr "")], [("age", Value.vNone)]]⟩ []
      = Except.ok
          (⟨["age"], [[("age", Value.vInt 5)]]⟩,
           [[("age", Value.vStr "")], [("age", Value.vNone)]]) :=
  Eq.trans
    ((C6_partition "age"
        ⟨["age"], [[("age", Value.vInt 5)], [("age", Value.vStr "")], [("age", Value.vNone)]]⟩
        []).1 (by decide))
    rfl

/-- Concrete package for C1: one join whose last (and only) field dict
holds TWO mappings. -/
def c1src : Source :=
  ⟨"applications_application", "app",
    [[("application_number", "application_number")]], 34, "id"⟩

/-- The join spec of the C1 failing input. -/
def c1join : Join :=
  ⟨"j1", "JOIN_SOURCE", "id", "application_id",
    "application_data_textboxanswer", 1015,
    [[("line1", "addr1"), ("line2", "addr2")]], []⟩

/-- The query rendered by `build_query` at the C1 failing input. -/
def c1q : String :=
  "SELECT\n    app.application_number AS application_number,\n    j1.line1 AS addr1\n    j1.line2 AS addr2\n\nFROM\n    applications_application app\n\nLEFT JOIN application_data_answer initial_join_answers ON app.id = initial_join_answers.application_id AND initial_join_answers.question_id = 1015\nLEFT JOIN application_data_textboxanswer j1 ON initial_join_answers.id = j1.answer_ptr_id\n\n WHERE \n    app.project_id = 34\n ORDER BY\napp.id;"

/-- C1: evaluation of `build_query` at the failing input.  The Python
comma test `index == len(join_list) - 1 and field == item['fields'][-1]`
compares whole field DICTS, so when the last field dict of the last join
holds two mappings, BOTH of its select lines are emitted without the
trailing comma: the rendered query contains `AS addr1` followed directly
by a newline (no comma) even though the `addr1` line is not the last
selected column — invalid SQL, and a divergence from the claim that
only the very last selected column lacks the comma.  (The N-pairs-of-
LEFT-JOIN half of the claim does hold; the comma half is the bug.) -/
theorem C1_eval :
    build_query (some c1src) (some [c1join]) none = Except.ok (some c1q)
    ∧ strContains c1q ("AS addr1,") = false
    ∧ strContains c1q ("AS addr1\n") = true
    ∧ strContains c1q ("AS addr2,") = false
    ∧ strContains c1q ("AS addr2\n") = true :=
  ⟨rfl, rfl, rfl, rfl, rfl⟩

/-- Concrete joins for C2: the third join carries the `DATA_SOURCE`
tag, so per the claim its first ON clause should join against the
linking alias of the second join (`join_answers_1`). -/
def c2j1 : Join :=
  ⟨"j1", "JOIN_SOURCE", "id", "application_id",
    "application_data_textboxanswer", 1015, [[("value", "v1")]], []⟩

/-- Second C2 join. -/
def c2j2 : Join :=
  ⟨"j2", "DATA_SOURCE", "rs", "rs",
    "application_data_addressanswer", 1016, [[("value", "v2")]], []⟩

/-- Third C2 join. -/
def c2j3 : Join :=
  ⟨"j3", "DATA_SOURCE", "rs", "rs",
    "application_data_singleselectanswer", 1013, [[("value", "v3")]], []⟩

/-- The clause pair emitted for the third C2 join. -/
def c2clause3 : String :=
  "\nLEFT JOIN application_data_answer join_answers_2 ON initial_join_answers.rs = join_answers_2.rs AND join_answers_2.question_id = 1013\nLEFT JOIN application_data_singleselectanswer j3 ON join_answers_2.id = j3.answer_ptr_id\n"

/-- C2 (counterexample): in the join section rendered by `build_query`
(via `buildJoinClauses`), the third join's first ON clause has
`initial_join_answers` on its left side, NOT the prior linking alias
`join_answers_1` required by the claim: the `DATA_SOURCE` branch of the
source always emits the fixed string `'initial_join_answers'`. -/
theorem C2_cex :
    buildJoinClauses "app" [c2j1, c2j2, c2j3] 0 none
      = Except.ok
          ["\nLEFT JOIN application_data_answer initial_join_answers ON app.id = initial_join_answers.application_id AND initial_join_answers.question_id = 1015\nLEFT JOIN application_data_textboxanswer j1 ON initial_join_answers.id = j1.answer_ptr_id\n",
           "\nLEFT JOIN application_data_answer join_answers_1 ON initial_join_answers.rs = join_answers_1.rs AND join_answers_1.question_id = 1016\nLEFT JOIN application_data_addressanswer j2 ON join_answers_1.id = j2.answer_ptr_id\n",
           c2clause3]
    ∧ strContains c2clause3 ("ON join_answers_1.") = false
    ∧ strContains c2clause3 ("ON initial_join_answers.") = true :=
  ⟨rfl, rfl, rfl⟩

/-- C2 (amended): in the query rendered by `build_query`, the left side
of the first ON clause of each join's linking-table LEFT JOIN is the
SourceSpec's alias when the join's tag is `JOIN_SOURCE`, and otherwise
(`DATA_SOURCE`) it is ALWAYS the fixed linking alias
`initial_join_answers`, regardless of the join's position in the
list. -/
theorem C2_amended (srcName : String) (js : List Join) (idx : Nat)
    (prevQS : Option String)
    (h : ∀ j ∈ js, j.question_source = "JOIN_SOURCE"
        ∨ j.question_source = "DATA_SOURCE") :
    buildJoinClauses srcName js idx prevQS
      = Except.ok (joinClausesAmended srcName js idx) := by
  induction js generalizing idx prevQS with
  | nil => rfl
  | cons item rest IH =>
    have hitem := h item (List.mem_cons_self item rest)
    have hrest : ∀ j ∈ rest, j.question_source = "JOIN_SOURCE"
        ∨ j.question_source = "DATA_SOURCE" :=
      fun j hj => h j (List.mem_cons_of_mem item hj)
    rcases hitem with h1 | h1
    · simp [buildJoinClauses, joinClausesAmended, h1,
        IH (idx + 1) (some srcName) hrest]
    · simp [buildJoinClauses, joinClausesAmended, h1,
        IH (idx + 1) (some "initial_join_answers") hrest]

/-- C2 (witness): the amended theorem applied at the three concrete
joins of the counterexample. -/
theorem C2_witness :
    buildJoinClauses "app" [c2j1, c2j2, c2j3] 5 none
      = Except.ok (joinClausesAmended "app" [c2j1, c2j2, c2j3] 5) :=
  C2_amended "app" [c2j1, c2j2, c2j3] 5 none (by decide)

/-- C7 (counterexample): a second, successful execution with cleaning
DISABLED does not clear the previously accumulated audit log: after a
first run on pull1 (clean=true) and a second run on pull2
(clean=false), the audit log still holds the first run's snapshots of
pull1, not a freshly rebuilt `[Original, Final]` log of pull2's data —
the reset only happens inside `clean_table`, which a clean=false call
never reaches. -/
theorem C7_cex :
    (query_to_df
        (query_to_df ⟨["a"], some "q", [], ⟨[], []⟩, [], [], []⟩
          ⟨["a"], [[("a", Value.vInt 1)]]⟩ true).1
        ⟨["a"], [[("a", Value.vInt 2)]]⟩ false).2
      = Except.ok ⟨["a"], [[("a", Value.vInt 2)]]⟩
    ∧ (query_to_df
        (query_to_df ⟨["a"], some "q", [], ⟨[], []⟩, [], [], []⟩
          ⟨["a"], [[("a", Value.vInt 1)]]⟩ true).1
        ⟨["a"], [[("a", Value.vInt 2)]]⟩ false).1.cleaning_versions
      = [⟨"Original DataFrame", none, ⟨["a"], [[("a", Value.vInt 1)]]⟩⟩,
         ⟨"Final DataFrame", none, ⟨["a"], [[("a", Value.vInt 1)]]⟩⟩]
    ∧ ([⟨"Original DataFrame", none, ⟨["a"], [[("a", Value.vInt 1)]]⟩⟩,
        ⟨"Final DataFrame", none, ⟨["a"], [[("a", Value.vInt 1)]]⟩⟩] : List Snap)
      ≠ [⟨"Original DataFrame", none, ⟨["a"], [[("a", Value.vInt 2)]]⟩⟩,
         ⟨"Final DataFrame", none, ⟨["a"], [[("a", Value.vInt 2)]]⟩⟩] :=
  ⟨rfl, rfl, by decide⟩

/-- C7 (amended): only executions with cleaning ENABLED clear the
accumulated removed-rows table and audit log: a successful clean=true
call rebuilds the audit log as exactly `[Original, one entry per
clean-plan step, Final]` (independently of any previous contents) and
its removed-rows table is exactly what this run's steps produced from
an empty sink; a clean=false call leaves both the audit log and the
removed-rows table exactly as they were. -/
theorem C7_amended (s : Session) (pull : Table) :
    (∀ (s2 : Session) (d : Table),
      query_to_df s pull true = (s2, Except.ok d) →
      s2.cleaning_versions.map Snap.step
        = "Original DataFrame"
            :: (s.clean_list.map (fun st => stepVersion st.function)
                ++ ["Final DataFrame"])
      ∧ ∃ r v, runSteps s.clean_list (drop_duplicates pull) []
            [⟨"Original DataFrame", none, drop_duplicates pull⟩]
            = (r, v, Except.ok d)
          ∧ s2.removed = r)
    ∧ (query_to_df s pull false).1.cleaning_versions = s.cleaning_versions
    ∧ (query_to_df s pull false).1.removed = s.removed := by
  constructor
  · intro s2 d h
    simp only [query_to_df] at h
    split at h
    · rename_i q hq
      split at h
      · rename_i hpe
        split at h
        · rename_i s1 hcs
          rw [check_schema_eq s pull hpe] at hcs
          have hs1 := congrArg Prod.fst hcs
          simp only at hs1
          subst hs1
          rw [if_pos trivial] at h
          split at h
          · rename_i s3 d0 hct
            rw [clean_table_eq] at hct
            split at hct
            · rename_i r v d1 hrun
              have hs3 := congrArg Prod.fst hct
              have hd1 : d1 = d0 := by
                have h2 := congrArg Prod.snd hct
                simpa using h2
              simp only at hs3
              have hs2 := (congrArg Prod.fst h).symm
              have hd0 : d0 = d := by
                have h2 := congrArg Prod.snd h
                simpa using h2
              simp only at hs2
              subst hs3
              rw [hd1, hd0] at hrun
              constructor
              · rw [hs2]
                have hnames := runSteps_names _ _ _ _ _ _ _ hrun
                simp only [List.map_cons, List.map_nil] at hnames
                simp only [List.map_append, List.map_cons, List.map_nil]
                rw [hnames]
                simp
              · exact ⟨r, v, hrun, by rw [hs2]⟩
            · exact absurd (congrArg (fun x => x.2) hct) (by simp)
          · exact absurd (congrArg (fun x => x.2) h) (by simp)
        · exact absurd (congrArg (fun x => x.2) h) (by simp)
        · rename_i s3 e hcs
          rw [check_schema_eq s pull hpe] at hcs
          exact absurd (congrArg (fun x => x.2) hcs) (by simp)
      · exact absurd (congrArg (fun x => x.2) h) (by simp)
    · exact absurd (congrArg (fun x => x.2) h) (by simp)
  · simp only [query_to_df]
    split
    · rename_i q hq
      split
      · rename_i hpe
        split
        · rename_i s1 hcs
          rw [check_schema_eq s pull hpe] at hcs
          have hs1 := congrArg Prod.fst hcs
          simp only at hs1
          subst hs1
          exact ⟨rfl, rfl⟩
        · rename_i s1 hcs
          rw [check_schema_eq s pull hpe] at hcs
          have hs1 := congrArg Prod.fst hcs
          simp only at hs1
          subst hs1
          exact ⟨rfl, rfl⟩
        · rename_i s3 e hcs
          rw [check_schema_eq s pull hpe] at hcs
          exact absurd (congrArg (fun x => x.2) hcs) (by simp)
      · exact ⟨rfl, rfl⟩
    · exact ⟨rfl, rfl⟩

/-- C7 (witness): the amended theorem applied at a concrete session
with an empty clean plan and a one-row pull: the rebuilt audit log is
exactly `[Original, Final]`. -/
theorem C7_witness :
    (⟨["a"], some "q", [], ⟨["a"], [[("a", Value.vInt 1)]]⟩, [],
        [⟨"Original DataFrame", none, ⟨["a"], [[("a", Value.vInt 1)]]⟩⟩,
         ⟨"Final DataFrame", none, ⟨["a"], [[("a", Value.vInt 1)]]⟩⟩],
        []⟩ : Session).cleaning_versions.map Snap.step
      = ["Original DataFrame", "Final DataFrame"]
    ∧ ∃ r v, runSteps ([] : List CleanStep)
          (drop_duplicates ⟨["a"], [[("a", Value.vInt 1)]]⟩) []
          [⟨"Original DataFrame", none,
            drop_duplicates ⟨["a"], [[("a", Value.vInt 1)]]⟩⟩]
          = (r, v, Except.ok ⟨["a"], [[("a", Value.vInt 1)]]⟩)
        ∧ (⟨["a"], some "q", [], ⟨["a"], [[("a", Value.vInt 1)]]⟩, [],
            [⟨"Original DataFrame", none, ⟨["a"], [[("a", Value.vInt 1)]]⟩⟩,
             ⟨"Final DataFrame", none, ⟨["a"], [[("a", Value.vInt 1)]]⟩⟩],
            []⟩ : Session).removed = r := by
  have h := (C7_amended ⟨["a"], some "q", [], ⟨[], []⟩, [], [], []⟩
      ⟨["a"], [[("a", Value.vInt 1)]]⟩).1
      ⟨["a"], some "q", [], ⟨["a"], [[("a", Value.vInt 1)]]⟩, [],
        [⟨"Original DataFrame", none, ⟨["a"], [[("a", Value.vInt 1)]]⟩⟩,
         ⟨"Final DataFrame", none, ⟨["a"], [[("a", Value.vInt 1)]]⟩⟩],
        []⟩
      ⟨["a"], [[("a", Value.vInt 1)]]⟩ rfl
  simpa using h

/-- C8: for a session with no previously recorded missing fields whose
schema misses exactly the column `c` in the pulled result, execution
fails with the named schema-validation error and the session afterwards
carries exactly `[c]` in `fields_missing` — readable on the returned
(mutated) session even though the call failed. -/
theorem C8_schema_missing (s : Session) (t : Table) (c : String)
    (clean : Bool) (q : String)
    (hq : s.query = some q) (hf : s.fields_missing = [])
    (ht : t.rows.isEmpty = false)
    (hm : missingFields s.schema t.cols = [c]) :
    query_to_df s t clean
      = ({s with fields_missing := [c]},
         Except.error "Error: DataFrame Schema Did Not Match, Check fields_missing()")
    ∧ ({s with fields_missing := [c]} : Session).fields_missing = [c] := by
  refine ⟨?_, rfl⟩
  simp only [query_to_df]
  rw [check_schema_eq s t ht, hm, hf]
  rw [hq, if_pos ht]
  rfl

/-- C8 (witness): the theorem applied at a fresh session expecting
column "z" against a result that lacks exactly that column. -/
theorem C8_witness :
    query_to_df ⟨["z"], some "q", [], ⟨[], []⟩, [], [], []⟩
        ⟨["a"], [[("a", Value.vInt 1)]]⟩ true
      = (({(⟨["z"], some "q", [], ⟨[], []⟩, [], [], []⟩ : Session) with
            fields_missing := ["z"]}),
         Except.error "Error: DataFrame Schema Did Not Match, Check fields_missing()")
    ∧ ({(⟨["z"], some "q", [], ⟨[], []⟩, [], [], []⟩ : Session) with
          fields_missing := ["z"]} : Session).fields_missing = ["z"] :=
  C8_schema_missing ⟨["z"], some "q", [], ⟨[], []⟩, [], [], []⟩
    ⟨["a"], [[("a", Value.vInt 1)]]⟩ "z" true "q" rfl rfl rfl (by decide)

/-- C9: evaluation of the object-level cleaning pipeline at the failing
input: a clean plan with the single step to-integer on "n" and the
deduplicated result `[{n:"12"}]`.  The "Original DataFrame" audit entry
stores a REFERENCE (index 0) to the working frame, and `convert_integer`
mutates that same frame in place (`df[field] = pd.to_numeric(...)`), so
after the run the Original snapshot dereferences to the
already-converted table `[{n:12}]` and no longer equals the
pre-cleaning state `[{n:"12"}]` — contradicting the claim (and the
source's own docstring, which says the log records the state of the
DataFrame at each cleaning step). -/
theorem C9_eval :
    clean_table_st [⟨"n", CleanFn.intConvert⟩] 0
        [⟨["n"], [[("n", Value.vStr "12")]]⟩]
      = ([],
         [⟨"Original DataFrame", none, 0⟩,
          ⟨"Convert String Numbers to Integers", some "n", 0⟩,
          ⟨"Final DataFrame", none, 0⟩],
         [⟨["n"], [[("n", Value.vInt 12)]]⟩],
         Except.ok 0)
    ∧ storeGet [(⟨["n"], [[("n", Value.vInt 12)]]⟩ : Table)] 0
        ≠ ⟨["n"], [[("n", Value.vStr "12")]]⟩ :=
  ⟨rfl, by decide⟩

/-- C10: `check_schema` only ever APPENDS to the session's
missing-fields list — the list is emptied only at construction
(`RDS_init`), so two validations accumulate, and a column missed twice
appears twice. -/
theorem C10_append_only :
    (∀ (qp : Option QueryPackage) (sc ex : Option (List String))
      (q : Option String) (s : Session),
      RDS_init qp sc ex q = Except.ok s → s.fields_missing = [])
    ∧ (∀ (s : Session) (t1 t2 : Table),
      t1.rows.isEmpty = false → t2.rows.isEmpty = false →
      ((check_schema (check_schema s t1).1 t2).1).fields_missing
        = s.fields_missing ++ missingFields s.schema t1.cols
            ++ missingFields s.schema t2.cols) := by
  constructor
  · intro qp sc ex q s h
    simp only [RDS_init] at h
    split at h
    · exact absurd h (by simp)
    · split at h
      · exact absurd h (by simp)
      · have h2 := Except.ok.inj h
        subst h2
        rfl
  · intro s t1 t2 h1 h2
    rw [check_schema_eq s t1 h1]
    rw [check_schema_eq _ t2 h2]

/-- C10 (witness): the theorem applied with the same non-matching
result pulled twice: the missing column "z" is recorded twice. -/
theorem C10_witness :
    ((check_schema
        (check_schema ⟨["z"], some "q", [], ⟨[], []⟩, [], [], []⟩
          ⟨["a"], [[("a", Value.vInt 1)]]⟩).1
        ⟨["a"], [[("a", Value.vInt 1)]]⟩).1).fields_missing
      = ["z", "z"] :=
  Eq.trans
    (C10_append_only.2 ⟨["z"], some "q", [], ⟨[], []⟩, [], [], []⟩
      ⟨["a"], [[("a", Value.vInt 1)]]⟩ ⟨["a"], [[("a", Value.vInt 1)]]⟩ rfl rfl)
    rfl

end TBRDS
